import Mathlib

/-!
Verification of the resilient task execution core behind langgraph's node
retry policies (`docs/docs/how-tos/node-retries.ipynb`): the `RetryPolicy`
configuration record, the `default_retry_on` failure classifier, the
exponential backoff/jitter schedule, and the per-node attempt tracker.
Durations are modelled as rationals (seconds), failures as an abstract kind
plus an optional HTTP response status code.
-/

namespace NodeRetries

/-- Failure kinds, following the exception names listed in the notebook cell
"By default, the retry_on parameter uses the default_retry_on function, which
retries on any exception except for the following: ...".  `attributeError`
models Python's `AttributeError` (absent from that list), `cancellation`
models a cancellation signal, and `other` covers every remaining kind
(identified by name). -/
inductive FailureKind where
  | valueError
  | typeError
  | arithmeticError
  | importError
  | lookupError
  | nameError
  | attributeError
  | syntaxError
  | runtimeError
  | referenceError
  | stopIteration
  | stopAsyncIteration
  | osError
  | cancellation
  | other (name : String)
deriving DecidableEq

/-- A failure raised by one invocation of a node's callable: its kind and,
for exceptions from http request libraries, the associated response status
code. -/
structure Failure where
  kind : FailureKind
  status : Option Nat
deriving DecidableEq

/-- The cancellation-kind failure the tracker reports when the owning graph
execution is cancelled. -/
def cancellationFailure : Failure :=
  { kind := .cancellation, status := none }

/-- Modelled from the spec: the repository's `default_retry_on` function is
not under `src/`; this follows the notebook's description (retry on any
exception except the twelve listed kinds; for http-request-library
exceptions, retry only on 5xx status codes) and §4.2 of the spec, which
gives the status-code rule precedence over the kind-based rule when a
status code is present. -/
def default_retry_on (f : Failure) : Bool :=
  match f.status with
  | some code => decide (500 ≤ code) && decide (code < 600)
  | none =>
    match f.kind with
    | .valueError => false
    | .typeError => false
    | .arithmeticError => false
    | .importError => false
    | .lookupError => false
    | .nameError => false
    | .syntaxError => false
    | .runtimeError => false
    | .referenceError => false
    | .stopIteration => false
    | .stopAsyncIteration => false
    | .osError => false
    | _ => true

/-- The fixed non-retryable kind set of the default classifier, exactly the
twelve exception names listed in the notebook. -/
def nonRetryableKinds : List FailureKind :=
  [.valueError, .typeError, .arithmeticError, .importError, .lookupError,
   .nameError, .syntaxError, .runtimeError, .referenceError, .stopIteration,
   .stopAsyncIteration, .osError]

/-- The non-retryable kind set as the claim describes it: the notebook's
list together with attribute errors ("lookup/name/attribute errors"). -/
def claimedNonRetryableKinds : List FailureKind :=
  nonRetryableKinds ++ [.attributeError]

/-- The `retry_on` field of a policy: either a predicate over failures, a
list of failure kinds, or a single failure kind (one exception class), as
accepted by `RetryPolicy(retry_on=...)`. -/
inductive RetryOn where
  | pred (f : Failure → Bool)
  | kinds (ks : List FailureKind)
  | single (k : FailureKind)

/-- Evaluate a `retry_on` value on a failure: a predicate is invoked
directly; a list of kinds retries exactly when the failure's kind is in the
list; a single kind retries exactly when the failure is of that kind. -/
def classifyRetryOn : RetryOn → Failure → Bool
  | .pred g, f => g f
  | .kinds ks, f => decide (f.kind ∈ ks)
  | .single k, f => decide (f.kind = k)

/-- The retry policy record, with the fields and field order of
`langgraph.pregel.RetryPolicy`.  Intervals are rational numbers of
seconds. -/
structure RetryPolicy where
  initial_interval : ℚ
  backoff_factor : ℚ
  max_interval : ℚ
  max_attempts : Nat
  jitter : Bool
  retry_on : RetryOn

/-- The §3 invariants of a policy. -/
def RetryPolicy.valid (p : RetryPolicy) : Prop :=
  0 < p.initial_interval ∧ 1 ≤ p.backoff_factor ∧
    p.initial_interval ≤ p.max_interval ∧ 1 ≤ p.max_attempts

instance (p : RetryPolicy) : Decidable p.valid := by
  unfold RetryPolicy.valid; infer_instance

/-- The construction-time validation error of §7. -/
inductive InvalidPolicyError where
  | invalidPolicy (msg : String)
deriving DecidableEq

/-- Modelled from the spec: the repository's constructor is not under
`src/`; §4.1 says construction validates the §3 invariants and fails with
`InvalidPolicyError` when one is violated.  Arguments are positional, in
field order; the documented defaults are
`mkRetryPolicy (1/2) 2 128 3 true (.pred default_retry_on)`. -/
def mkRetryPolicy (initial_interval backoff_factor max_interval : ℚ)
    (max_attempts : Nat) (jitter : Bool) (retry_on : RetryOn) :
    Except InvalidPolicyError RetryPolicy :=
  if initial_interval ≤ 0 then
    .error (.invalidPolicy "initial_interval must be positive")
  else if backoff_factor < 1 then
    .error (.invalidPolicy "backoff_factor must be at least 1")
  else if max_interval < initial_interval then
    .error (.invalidPolicy "max_interval must be at least initial_interval")
  else if max_attempts < 1 then
    .error (.invalidPolicy "max_attempts must be at least 1")
  else
    .ok { initial_interval := initial_interval, backoff_factor := backoff_factor,
          max_interval := max_interval, max_attempts := max_attempts,
          jitter := jitter, retry_on := retry_on }

/-- The documented default policy record:
`RetryPolicy(initial_interval=0.5, backoff_factor=2.0, max_interval=128.0,
max_attempts=3, jitter=True, retry_on=default_retry_on)`. -/
def defaultRetryPolicy : RetryPolicy :=
  { initial_interval := 1/2, backoff_factor := 2, max_interval := 128,
    max_attempts := 3, jitter := true, retry_on := .pred default_retry_on }

/-- Modelled from the spec: the BackoffScheduler of §4.3 is not under
`src/`.  The wait before attempt `attemptsMade + 1` is
`interval = min(initial_interval * backoff_factor^(attemptsMade - 1),
max_interval)`; with jitter the wait is drawn uniformly from
`[interval * 0.5, interval * 1.5]`, modelled by a draw `r ∈ [0, 1]` supplied
by the caller. -/
def computedWait (p : RetryPolicy) (r : ℚ) (attemptsMade : Nat) : ℚ :=
  let interval :=
    min (p.initial_interval * p.backoff_factor ^ (attemptsMade - 1)) p.max_interval
  if p.jitter then interval * (1/2 + r) else interval

/-- The result of a full AttemptTracker run (§3): success with the callable's
value, or failure with the final failure and the number of attempts made. -/
inductive ExecutionOutcome (α : Type) where
  | success (value : α)
  | failure (final_failure : Failure) (attempts_made : Nat)
deriving DecidableEq

/-- An AttemptTracker run together with the observations the testable
properties of §8 speak about: how many times the callable was invoked and
the sequence of computed waits. -/
structure RunResult (α : Type) where
  outcome : ExecutionOutcome α
  invocations : Nat
  waits : List ℚ

/-- Modelled from the spec: the AttemptTracker state machine of §4.4 is not
under `src/`.  `runAttempts` runs the tracker from state `RUNNING` with the
given attempt number: the callable returning normally is
`RUNNING → SUCCEEDED`; on a failure (`RUNNING → EVALUATING_RETRY`) the
tracker retries exactly when the classifier says retryable and fewer than
`max_attempts` attempts were made, computing the wait via the
BackoffScheduler (`EVALUATING_RETRY → WAITING`); cancellation signalled
during the wait is `WAITING → FAILED` with a cancellation failure,
otherwise `WAITING → RUNNING` with the next attempt number.  `call n` is
attempt `n`'s result, `rand n` the jitter draw for the wait after attempt
`n`, and `cancel n` whether cancellation is signalled during that wait. -/
def runAttempts {α : Type} (p : RetryPolicy) (call : Nat → Except Failure α)
    (rand : Nat → ℚ) (cancel : Nat → Bool) (attempt : Nat) : RunResult α :=
  match call attempt with
  | .ok v => { outcome := .success v, invocations := 1, waits := [] }
  | .error f =>
    if h : classifyRetryOn p.retry_on f = true ∧ attempt < p.max_attempts then
      let w := computedWait p (rand attempt) attempt
      if cancel attempt then
        { outcome := .failure cancellationFailure attempt,
          invocations := 1, waits := [w] }
      else
        let rest := runAttempts p call rand cancel (attempt + 1)
        { outcome := rest.outcome, invocations := rest.invocations + 1,
          waits := w :: rest.waits }
    else
      { outcome := .failure f attempt, invocations := 1, waits := [] }
termination_by p.max_attempts - attempt
decreasing_by
  obtain ⟨-, h2⟩ := h
  omega

/-- A full tracker run: `PENDING → RUNNING` with attempt number 1. -/
def runTracker {α : Type} (p : RetryPolicy) (call : Nat → Except Failure α)
    (rand : Nat → ℚ) (cancel : Nat → Bool) : RunResult α :=
  runAttempts p call rand cancel 1

/-- The policy of the §8 scenario:
`{max_attempts=3, initial_interval=1s, backoff_factor=2, jitter=false}`. -/
def scenarioPolicy : RetryPolicy :=
  { initial_interval := 1, backoff_factor := 2, max_interval := 128,
    max_attempts := 3, jitter := false, retry_on := .pred default_retry_on }

/-- The callable of the §8 scenario: fails twice with a transient
(retryable) failure, then succeeds on the third attempt. -/
def scenarioCall : Nat → Except Failure Nat := fun n =>
  if n < 3 then .error { kind := .other "TransientError", status := none } else .ok 42

/-- A transient failure kind outside the default classifier's fixed
non-retryable set, used in concrete runs. -/
def transientFailure : Failure :=
  { kind := .other "TransientError", status := none }

/-! ## General lemmas about the tracker -/

/-- One-step unfolding of `runAttempts`. -/
theorem runAttempts_eq {α : Type} (p : RetryPolicy) (call : Nat → Except Failure α)
    (rand : Nat → ℚ) (cancel : Nat → Bool) (attempt : Nat) :
    runAttempts p call rand cancel attempt =
      match call attempt with
      | .ok v => { outcome := .success v, invocations := 1, waits := [] }
      | .error f =>
        if classifyRetryOn p.retry_on f = true ∧ attempt < p.max_attempts then
          let w := computedWait p (rand attempt) attempt
          if cancel attempt then
            { outcome := .failure cancellationFailure attempt,
              invocations := 1, waits := [w] }
          else
            let rest := runAttempts p call rand cancel (attempt + 1)
            { outcome := rest.outcome, invocations := rest.invocations + 1,
              waits := w :: rest.waits }
        else
          { outcome := .failure f attempt, invocations := 1, waits := [] } := by
  rw [runAttempts]
  split
  · rfl
  · split <;> rfl

/-- Evaluation of `runAttempts` on a successful attempt
(`RUNNING → SUCCEEDED`). -/
theorem runAttempts_ok {α : Type} {p : RetryPolicy} {call : Nat → Except Failure α}
    {rand : Nat → ℚ} {cancel : Nat → Bool} {attempt : Nat} {v : α}
    (h : call attempt = .ok v) :
    runAttempts p call rand cancel attempt =
      { outcome := .success v, invocations := 1, waits := [] } := by
  rw [runAttempts_eq, h]

/-- Evaluation of `runAttempts` on a failed attempt that is not retried
(`EVALUATING_RETRY → FAILED`). -/
theorem runAttempts_stop {α : Type} {p : RetryPolicy} {call : Nat → Except Failure α}
    {rand : Nat → ℚ} {cancel : Nat → Bool} {attempt : Nat} {f : Failure}
    (h : call attempt = .error f)
    (hcond : ¬(classifyRetryOn p.retry_on f = true ∧ attempt < p.max_attempts)) :
    runAttempts p call rand cancel attempt =
      { outcome := .failure f attempt, invocations := 1, waits := [] } := by
  rw [runAttempts_eq, h]
  exact if_neg hcond

/-- Evaluation of `runAttempts` on a failed attempt whose wait is
interrupted by cancellation (`EVALUATING_RETRY → WAITING → FAILED`). -/
theorem runAttempts_cancelled {α : Type} {p : RetryPolicy} {call : Nat → Except Failure α}
    {rand : Nat → ℚ} {cancel : Nat → Bool} {attempt : Nat} {f : Failure}
    (h : call attempt = .error f)
    (hcond : classifyRetryOn p.retry_on f = true ∧ attempt < p.max_attempts)
    (hcan : cancel attempt = true) :
    runAttempts p call rand cancel attempt =
      { outcome := .failure cancellationFailure attempt, invocations := 1,
        waits := [computedWait p (rand attempt) attempt] } := by
  rw [runAttempts_eq, h]
  dsimp only
  rw [if_pos hcond, if_pos hcan]

/-- Evaluation of `runAttempts` on a failed attempt that is retried
(`EVALUATING_RETRY → WAITING → RUNNING`). -/
theorem runAttempts_retry {α : Type} {p : RetryPolicy} {call : Nat → Except Failure α}
    {rand : Nat → ℚ} {cancel : Nat → Bool} {attempt : Nat} {f : Failure}
    (h : call attempt = .error f)
    (hcond : classifyRetryOn p.retry_on f = true ∧ attempt < p.max_attempts)
    (hcan : cancel attempt = false) :
    runAttempts p call rand cancel attempt =
      { outcome := (runAttempts p call rand cancel (attempt + 1)).outcome,
        invocations := (runAttempts p call rand cancel (attempt + 1)).invocations + 1,
        waits := computedWait p (rand attempt) attempt ::
          (runAttempts p call rand cancel (attempt + 1)).waits } := by
  rw [runAttempts_eq, h]
  dsimp only
  rw [if_pos hcond, if_neg (by rw [hcan]; exact Bool.false_ne_true)]

/-- A run whose every attempt fails retryably and is never cancelled makes
exactly the remaining `d + 1` attempts, ending on attempt `max_attempts`
with that attempt's failure. -/
theorem runAttempts_allFail {α : Type} (p : RetryPolicy) (call : Nat → Except Failure α)
    (rand : Nat → ℚ) (cancel : Nat → Bool)
    (hfail : ∀ n, ∃ f, call n = .error f ∧ classifyRetryOn p.retry_on f = true)
    (hnc : ∀ n, cancel n = false) :
    ∀ (d attempt : Nat), p.max_attempts = attempt + d →
      (runAttempts p call rand cancel attempt).invocations = d + 1 ∧
      ∀ f, call p.max_attempts = .error f →
        (runAttempts p call rand cancel attempt).outcome =
          .failure f p.max_attempts := by
  intro d
  induction d with
  | zero =>
    intro attempt hmax
    obtain ⟨f0, hc, -⟩ := hfail attempt
    rw [runAttempts_stop hc (fun hh => absurd hh.2 (by omega))]
    refine ⟨rfl, fun f hf => ?_⟩
    rw [hmax, Nat.add_zero] at hf
    rw [hc] at hf
    injection hf with hff
    rw [hff, hmax, Nat.add_zero]
  | succ d ih =>
    intro attempt hmax
    obtain ⟨f0, hc, hcl⟩ := hfail attempt
    rw [runAttempts_retry hc ⟨hcl, by omega⟩ (hnc attempt)]
    obtain ⟨ih1, ih2⟩ := ih (attempt + 1) (by omega)
    exact ⟨by rw [ih1], fun f hf => ih2 f hf⟩

/-! ## The claims -/

/-- C3 counterexample: the claim puts attribute errors in the fixed
non-retryable set, but the default classifier's list (the twelve exception
names of the notebook) does not contain `AttributeError`, so a
status-code-free attribute-error failure is classified retryable. -/
theorem attributeError_is_retryable :
    FailureKind.attributeError ∈ claimedNonRetryableKinds ∧
      default_retry_on { kind := .attributeError, status := none } = true := by
  constructor
  · decide
  · rfl

/-- C3 (amended): under the default classifier, a failure without a status
code is non-retryable exactly when its kind is one of the twelve fixed
kinds (value/type mismatches, arithmetic, import, lookup, name, syntax,
runtime, reference errors, iteration-exhausted signals, OS-level errors);
every other kind — attribute errors included — is retryable. -/
theorem default_retry_on_kind_rule (k : FailureKind) :
    default_retry_on { kind := k, status := none } = false ↔
      k ∈ nonRetryableKinds := by
  cases k <;> simp [default_retry_on, nonRetryableKinds]

/-- C4: under the default classifier, a failure carrying an HTTP response
status code is retryable exactly when the code is in 500–599, and the
status-code rule takes precedence over the kind-based rule: for every kind,
status 503 is retryable and status 404 is not. -/
theorem default_retry_on_status_rule :
    (∀ (f : Failure) (code : Nat), f.status = some code →
        (default_retry_on f = true ↔ 500 ≤ code ∧ code < 600)) ∧
      (∀ k : FailureKind, default_retry_on { kind := k, status := some 503 } = true) ∧
      (∀ k : FailureKind, default_retry_on { kind := k, status := some 404 } = false) := by
  refine ⟨fun f code hcode => ?_, fun k => rfl, fun k => rfl⟩
  obtain ⟨kind, status⟩ := f
  cases hcode
  simp [default_retry_on]

/-- C5: construction with no arguments yields exactly the documented
defaults `initial_interval=0.5, backoff_factor=2.0, max_interval=128,
max_attempts=3, jitter=true, retry_on=default_retry_on`, and each field can
be overridden independently (subject to the §3 invariants). -/
theorem mkRetryPolicy_defaults :
    (mkRetryPolicy (1/2) 2 128 3 true (.pred default_retry_on) =
        .ok { initial_interval := 1/2, backoff_factor := 2, max_interval := 128,
              max_attempts := 3, jitter := true,
              retry_on := .pred default_retry_on }) ∧
      (∀ v : ℚ, 0 < v → v ≤ 128 →
        mkRetryPolicy v 2 128 3 true (.pred default_retry_on) =
          .ok { defaultRetryPolicy with initial_interval := v }) ∧
      (∀ v : ℚ, 1 ≤ v →
        mkRetryPolicy (1/2) v 128 3 true (.pred default_retry_on) =
          .ok { defaultRetryPolicy with backoff_factor := v }) ∧
      (∀ v : ℚ, 1/2 ≤ v →
        mkRetryPolicy (1/2) 2 v 3 true (.pred default_retry_on) =
          .ok { defaultRetryPolicy with max_interval := v }) ∧
      (∀ m : Nat, 1 ≤ m →
        mkRetryPolicy (1/2) 2 128 m true (.pred default_retry_on) =
          .ok { defaultRetryPolicy with max_attempts := m }) ∧
      (∀ b : Bool,
        mkRetryPolicy (1/2) 2 128 3 b (.pred default_retry_on) =
          .ok { defaultRetryPolicy with jitter := b }) ∧
      (∀ ro : RetryOn,
        mkRetryPolicy (1/2) 2 128 3 true ro =
          .ok { defaultRetryPolicy with retry_on := ro }) := by
  refine ⟨?_, fun v h1 h2 => ?_, fun v h => ?_, fun v h => ?_, fun m h => ?_,
    fun b => ?_, fun ro => ?_⟩ <;>
    rw [mkRetryPolicy] <;>
    rw [if_neg (by push_neg; linarith), if_neg (by push_neg; linarith),
      if_neg (by push_neg; linarith), if_neg (by push_neg; linarith)] <;>
    rfl

/-- C8: `mkRetryPolicy` fails with an `InvalidPolicyError` exactly when one
of the §3 invariants `initial_interval > 0`, `backoff_factor ≥ 1`,
`max_interval ≥ initial_interval`, `max_attempts ≥ 1` is violated; the
error arises at construction, before any tracker run. -/
theorem mkRetryPolicy_validation (ii bf mi : ℚ) (ma : Nat) (j : Bool)
    (ro : RetryOn) :
    (∃ e, mkRetryPolicy ii bf mi ma j ro = .error e) ↔
      ¬(0 < ii ∧ 1 ≤ bf ∧ ii ≤ mi ∧ 1 ≤ ma) := by
  rw [mkRetryPolicy]
  split_ifs with h1 h2 h3 h4
  · exact ⟨fun _ h => absurd h.1 (not_lt.mpr h1), fun _ => ⟨_, rfl⟩⟩
  · exact ⟨fun _ h => absurd h.2.1 (not_le.mpr h2), fun _ => ⟨_, rfl⟩⟩
  · exact ⟨fun _ h => absurd h.2.2.1 (not_le.mpr h3), fun _ => ⟨_, rfl⟩⟩
  · exact ⟨fun _ h => absurd h.2.2.2 (by omega), fun _ => ⟨_, rfl⟩⟩
  · constructor
    · rintro ⟨e, he⟩
      exact absurd he (by simp)
    · intro h
      exact absurd ⟨not_le.mp h1, not_lt.mp h2, not_lt.mp h3, by omega⟩ h

/-- C10: `retry_on` also accepts a single failure kind, and a single kind
classifies exactly like the one-element kind list: retryable iff the
failure is of that kind. -/
theorem retryOn_single_kind (k : FailureKind) (f : Failure) :
    classifyRetryOn (.single k) f = classifyRetryOn (.kinds [k]) f ∧
      (classifyRetryOn (.single k) f = true ↔ f.kind = k) := by
  simp [classifyRetryOn]

/-- A callable whose every invocation raises a transient failure. -/
def alwaysFailCall : Nat → Except Failure Nat := fun _ => .error transientFailure

/-- C1: for a valid policy and a callable whose every invocation raises a
retryable failure (with no cancellation), the tracker invokes the callable
exactly `max_attempts` times and returns a `Failure` outcome carrying the
final failure and the attempt count. -/
theorem tracker_exhausts_max_attempts {α : Type} (p : RetryPolicy)
    (call : Nat → Except Failure α) (rand : Nat → ℚ) (cancel : Nat → Bool)
    (hvalid : p.valid)
    (hfail : ∀ n, ∃ f, call n = .error f ∧ classifyRetryOn p.retry_on f = true)
    (hnc : ∀ n, cancel n = false) :
    (runTracker p call rand cancel).invocations = p.max_attempts ∧
      ∃ f, call p.max_attempts = .error f ∧
        (runTracker p call rand cancel).outcome = .failure f p.max_attempts := by
  have hma := hvalid.2.2.2
  obtain ⟨h1, h2⟩ := runAttempts_allFail p call rand cancel hfail hnc
    (p.max_attempts - 1) 1 (by omega)
  obtain ⟨f, hf, -⟩ := hfail p.max_attempts
  exact ⟨by rw [runTracker, h1]; omega, f, hf, by rw [runTracker]; exact h2 f hf⟩

/-- C1 witness: the default policy against an always-failing transient
callable makes exactly 3 invocations and surfaces the final failure. -/
theorem tracker_exhausts_max_attempts_witness :
    (runTracker defaultRetryPolicy alwaysFailCall (fun _ => 0)
        (fun _ => false)).invocations = defaultRetryPolicy.max_attempts ∧
      ∃ f, alwaysFailCall defaultRetryPolicy.max_attempts = .error f ∧
        (runTracker defaultRetryPolicy alwaysFailCall (fun _ => 0)
          (fun _ => false)).outcome = .failure f defaultRetryPolicy.max_attempts :=
  tracker_exhausts_max_attempts defaultRetryPolicy alwaysFailCall (fun _ => 0)
    (fun _ => false) (by norm_num [RetryPolicy.valid, defaultRetryPolicy])
    (fun n => ⟨transientFailure, rfl, rfl⟩) (fun n => rfl)

/-- C2: with jitter disabled the Nth computed wait is exactly
`min(initial_interval * backoff_factor^(N-1), max_interval)`; and in the §8
scenario (`max_attempts=3, initial_interval=1, backoff_factor=2,
jitter=false`, two failures then success) the run succeeds after exactly 3
invocations with waits exactly 1s then 2s. -/
theorem computedWait_no_jitter (p : RetryPolicy) (r : ℚ) (N : Nat)
    (hj : p.jitter = false) (hN : 1 ≤ N) :
    computedWait p r N =
        min (p.initial_interval * p.backoff_factor ^ (N - 1)) p.max_interval ∧
      (runTracker scenarioPolicy scenarioCall (fun _ => 0)
          (fun _ => false)).outcome = .success 42 ∧
      (runTracker scenarioPolicy scenarioCall (fun _ => 0)
          (fun _ => false)).invocations = 3 ∧
      (runTracker scenarioPolicy scenarioCall (fun _ => 0)
          (fun _ => false)).waits = [1, 2] := by
  have hc1 : scenarioCall 1 = .error transientFailure := rfl
  have hc2 : scenarioCall 2 = .error transientFailure := rfl
  have hc3 : scenarioCall 3 = .ok 42 := rfl
  have hcl : classifyRetryOn scenarioPolicy.retry_on transientFailure = true := rfl
  have hlt1 : 1 < scenarioPolicy.max_attempts := by norm_num [scenarioPolicy]
  have hlt2 : 2 < scenarioPolicy.max_attempts := by norm_num [scenarioPolicy]
  have hnc1 : (fun _ : Nat => false) 1 = false := rfl
  have hnc2 : (fun _ : Nat => false) 2 = false := rfl
  have hrun : runTracker scenarioPolicy scenarioCall (fun _ => 0) (fun _ => false) =
      { outcome := .success 42, invocations := 3,
        waits := [computedWait scenarioPolicy 0 1, computedWait scenarioPolicy 0 2] } := by
    rw [runTracker,
      runAttempts_retry hc1 ⟨hcl, hlt1⟩ hnc1,
      runAttempts_retry hc2 ⟨hcl, hlt2⟩ hnc2,
      runAttempts_ok hc3]
  refine ⟨?_, ?_, ?_, ?_⟩
  · simp only [computedWait, hj, Bool.false_eq_true, if_false]
  · rw [hrun]
  · rw [hrun]
  · rw [hrun]
    norm_num [computedWait, scenarioPolicy, min_def]

/-- C2 witness: the formula and the scenario at `N = 2` with the scenario
policy itself. -/
theorem computedWait_no_jitter_witness :
    computedWait scenarioPolicy 0 2 =
        min (scenarioPolicy.initial_interval *
          scenarioPolicy.backoff_factor ^ (2 - 1)) scenarioPolicy.max_interval ∧
      (runTracker scenarioPolicy scenarioCall (fun _ => 0)
          (fun _ => false)).outcome = .success 42 ∧
      (runTracker scenarioPolicy scenarioCall (fun _ => 0)
          (fun _ => false)).invocations = 3 ∧
      (runTracker scenarioPolicy scenarioCall (fun _ => 0)
          (fun _ => false)).waits = [1, 2] :=
  computedWait_no_jitter scenarioPolicy 0 2 rfl (by norm_num)

/-- C6: with jitter enabled and a uniform draw `r ∈ [0, 1]`, every computed
wait lies within `[0.5, 1.5]` times the unjittered value
`min(initial_interval * backoff_factor^(N-1), max_interval)`. -/
theorem computedWait_jitter_bounds (p : RetryPolicy) (r : ℚ) (N : Nat)
    (hvalid : p.valid) (hj : p.jitter = true) (hr0 : 0 ≤ r) (hr1 : r ≤ 1) :
    (1/2) * min (p.initial_interval * p.backoff_factor ^ (N - 1)) p.max_interval
        ≤ computedWait p r N ∧
      computedWait p r N ≤
        (3/2) * min (p.initial_interval * p.backoff_factor ^ (N - 1))
          p.max_interval := by
  obtain ⟨hii, hbf, him, -⟩ := hvalid
  have hpow : (0:ℚ) < p.backoff_factor ^ (N - 1) := pow_pos (by linarith) _
  have hu : 0 ≤ min (p.initial_interval * p.backoff_factor ^ (N - 1)) p.max_interval :=
    le_min (le_of_lt (mul_pos hii hpow)) (by linarith)
  simp only [computedWait, hj, if_true]
  set u := min (p.initial_interval * p.backoff_factor ^ (N - 1)) p.max_interval with hudef
  constructor
  · nlinarith [mul_nonneg hu hr0]
  · nlinarith [mul_le_mul_of_nonneg_left hr1 hu]

/-- C6 witness: the default policy (jitter on) at `N = 1`, `r = 1/2`. -/
theorem computedWait_jitter_bounds_witness :
    (1/2) * min (defaultRetryPolicy.initial_interval *
          defaultRetryPolicy.backoff_factor ^ (1 - 1)) defaultRetryPolicy.max_interval
        ≤ computedWait defaultRetryPolicy (1/2) 1 ∧
      computedWait defaultRetryPolicy (1/2) 1 ≤
        (3/2) * min (defaultRetryPolicy.initial_interval *
          defaultRetryPolicy.backoff_factor ^ (1 - 1))
          defaultRetryPolicy.max_interval :=
  computedWait_jitter_bounds defaultRetryPolicy (1/2) 1
    (by norm_num [RetryPolicy.valid, defaultRetryPolicy]) rfl
    (by norm_num) (by norm_num)

/-- C7: a policy with `max_attempts = 1` never produces a second
invocation, whatever the callable, the jitter draws, the cancellation
schedule and the classifier verdict: the callable runs exactly once. -/
theorem max_attempts_one_no_retry {α : Type} (p : RetryPolicy)
    (call : Nat → Except Failure α) (rand : Nat → ℚ) (cancel : Nat → Bool)
    (h : p.max_attempts = 1) :
    (runTracker p call rand cancel).invocations = 1 := by
  rw [runTracker]
  cases hc : call 1 with
  | ok v => rw [runAttempts_ok hc]
  | error f => rw [runAttempts_stop hc (fun hh => absurd hh.2 (by omega))]

/-- A single-attempt policy: the defaults with `max_attempts = 1`. -/
def singleAttemptPolicy : RetryPolicy :=
  { defaultRetryPolicy with max_attempts := 1 }

/-- C7 witness: one invocation under the single-attempt policy even though
the callable always fails retryably. -/
theorem max_attempts_one_no_retry_witness :
    (runTracker singleAttemptPolicy alwaysFailCall (fun _ => 0)
      (fun _ => false)).invocations = 1 :=
  max_attempts_one_no_retry singleAttemptPolicy alwaysFailCall (fun _ => 0)
    (fun _ => false) rfl

/-- C9: if cancellation is signalled while the tracker is `WAITING` after
attempt `n` (the attempt failed and the classifier allowed a retry), the
tracker moves to `FAILED` with the cancellation-kind failure and never
starts another attempt — this holds for every policy, even one whose
classifier would deem a cancellation retryable, so cancellation is never
treated as retryable. -/
theorem cancellation_during_wait {α : Type} (p : RetryPolicy)
    (call : Nat → Except Failure α) (rand : Nat → ℚ) (cancel : Nat → Bool)
    (n : Nat) (f : Failure)
    (hcall : call n = .error f)
    (hretry : classifyRetryOn p.retry_on f = true)
    (hlt : n < p.max_attempts)
    (hcancel : cancel n = true) :
    (runAttempts p call rand cancel n).outcome = .failure cancellationFailure n ∧
      (runAttempts p call rand cancel n).invocations = 1 := by
  rw [runAttempts_cancelled hcall ⟨hretry, hlt⟩ hcancel]
  exact ⟨rfl, rfl⟩

/-- C9 witness: cancellation during the wait after attempt 1 under the
default policy: outcome is the cancellation failure, attempt 2 never
runs. -/
theorem cancellation_during_wait_witness :
    (runAttempts defaultRetryPolicy alwaysFailCall (fun _ => 0) (fun _ => true)
        1).outcome = .failure cancellationFailure 1 ∧
      (runAttempts defaultRetryPolicy alwaysFailCall (fun _ => 0) (fun _ => true)
        1).invocations = 1 :=
  cancellation_during_wait defaultRetryPolicy alwaysFailCall (fun _ => 0)
    (fun _ => true) 1 transientFailure rfl rfl
    (by norm_num [defaultRetryPolicy]) rfl

end NodeRetries
